import Mathlib

/-!
Verification development for the evowarepy repository (python modules for
Tecan Evoware pipetting-robot scripting).

The Python modules under `evoware/` are shallowly embedded below:

* pure functions become Lean functions;
* Python `raise` becomes `Except PyErr`; the distinct Python exception
  classes become constructors of `PyErr` (exception messages are dropped);
* Python `int` becomes `Int` (or `Nat` where the source value is a count);
* Python strings become Lean `String`; `str.strip()` becomes `String.trim`
  (the claims never exercise exotic unicode whitespace);
* Python dicts become insertion-ordered association lists manipulated by
  `dictInsert` / `dictGet?`, mirroring CPython's guaranteed dict semantics:
  assignment to an existing key overwrites the value in place (keeping the
  original position), assignment to a fresh key appends;
* the float expression `round(numpy.sqrt(3./2 * n))` in
  `PlateFormat.__init__` is modelled in exact arithmetic (for every well
  count reachable in practice the IEEE-754 double result coincides with the
  exact real value rounded to nearest, and ties cannot occur because
  `(2k+1)^2 = 6n` has no integer solutions);
* the worklist output file becomes the list of lines written, in order.
-/

set_option maxRecDepth 40000
set_option maxHeartbeats 4000000

deriving instance DecidableEq for Except

/-- Python exceptions raised by the embedded code (messages dropped). -/
inductive PyErr where
  | plateError
  | plateIndexError
  | typeError
  | keyError
  | indexError
  | assertionError
  | attributeError
  | zeroDivisionError
  | worklistException
  deriving DecidableEq, Repr

/-! ### Python dict model

CPython dicts preserve insertion order; `d[k] = v` on an existing key
replaces the value at the key's original position, on a fresh key it
appends.  Association lists with these two operations model every dict
the claims touch. -/

def dictInsert {β : Type} : List (String × β) → String → β → List (String × β)
  | [], k, v => [(k, v)]
  | (k', v') :: t, k, v =>
    if k' = k then (k, v) :: t else (k', v') :: dictInsert t k v

def dictGet? {β : Type} : List (String × β) → String → Option β
  | [], _ => none
  | (k', v') :: t, k => if k' = k then some v' else dictGet? t k

/-! ### Python string primitives

Implemented over `List Char` by structural recursion so that every
definition evaluates inside the kernel (`String.splitOn`, `String.trim`
and friends are compiled through well-founded recursion and do not). -/

/-- the characters `str.strip()` removes (Python's ASCII whitespace). -/
def isPySpace (c : Char) : Bool :=
  c = ' ' || c = '\t' || c = '\n' || c = '\r' ||
  c.toNat = 11 || c.toNat = 12

/-- `str.strip()`. -/
def pyStrip (s : String) : String :=
  String.mk ((((s.data.dropWhile isPySpace).reverse).dropWhile isPySpace).reverse)

/-- `'#' in s`. -/
def pyContains (s : String) (c : Char) : Bool :=
  s.data.any (fun x => x = c)

/-- `s.split(c)` for a single-character separator (CPython: splitting a
string that lacks the separator yields the one-element list `[s]`, and
`''.split(c) == ['']`). -/
def splitChar (c : Char) (s : String) : List String :=
  (s.data.foldr
    (fun ch acc =>
      if ch = c then [] :: acc
      else
        match acc with
        | [] => [[ch]]
        | g :: gs => (ch :: g) :: gs)
    [[]]).map String.mk

/-! ### ASCII character helpers (the subset of Python string ops used) -/

def isAsciiUpper (c : Char) : Bool := 65 ≤ c.toNat && c.toNat ≤ 90

def isAsciiLower (c : Char) : Bool := 97 ≤ c.toNat && c.toNat ≤ 122

/-- the regex character class `[A-Za-z]`. -/
def isAsciiLetter (c : Char) : Bool := isAsciiUpper c || isAsciiLower c

/-- the regex character class `[0-9]`. -/
def isAsciiDigit (c : Char) : Bool := 48 ≤ c.toNat && c.toNat ≤ 57

/-- `letter.upper()` for the single char the position regex can produce. -/
def pyUpper (c : Char) : Char :=
  if isAsciiLower c then Char.ofNat (c.toNat - 32) else c

/-- `int(number_string)` on a non-empty run of ASCII digits. -/
def digitsToNat (cs : List Char) : Nat :=
  cs.foldl (fun a c => 10 * a + (c.toNat - 48)) 0

/-! ### PlateFormat (evoware/plates.py) -/

/-- `PlateFormat`: `n` wells arranged as `nx` columns by `ny` rows. -/
structure PlateFormat where
  n : Nat
  nx : Nat
  ny : Nat
  deriving DecidableEq, Repr

namespace PlateFormat

/-- fuel-driven climb computing `⌊√m⌋`: the largest `k` with `k*k ≤ m`
(kernel-executable, unlike `Nat.sqrt`). -/
def isqrtIter (m : Nat) : Nat → Nat → Nat
  | 0, k => k
  | fuel + 1, k => if (k + 1) * (k + 1) ≤ m then isqrtIter m fuel (k + 1) else k

/-- `⌊√m⌋`. -/
def isqrt (m : Nat) : Nat := isqrtIter m m 0

/-- `int(round(N.sqrt(3./2 * n)))` — the column count derived from the well
count assuming a 3:2 columns:rows ratio.  Exact-arithmetic model: `k` is
`⌊√(3n/2)⌋` and the value rounds up exactly when `√(3n/2) ≥ k + 1/2`,
i.e. when `(2k+1)² ≤ 6n`; a tie `(2k+1)² = 6n` is impossible (odd ≠ even),
so round-half-to-even never has to break a tie here. -/
def derive_nx (n : Nat) : Nat :=
  let k := isqrt (3 * n / 2)
  if (2 * k + 1) ^ 2 ≤ 6 * n then k + 1 else k

/-- `int(round(1.0 * a / b))` with Python3 banker's rounding (half to even). -/
def pyRoundDiv (a b : Nat) : Nat :=
  let q := a / b
  let r := a % b
  if 2 * r < b then q
  else if b < 2 * r then q + 1
  else if q % 2 = 0 then q else q + 1

/-- `PlateFormat.__init__(n)` without explicit `nx`/`ny`: derives the
dimensions and checks `nx * ny == n`, else raises `PlateError`.
If the derived `nx` is 0 (only for `n = 0`), the expression `1.0*n/self.nx`
raises `ZeroDivisionError` before the check. -/
def init (n : Nat) : Except PyErr PlateFormat :=
  let nx := derive_nx n
  if nx = 0 then .error .zeroDivisionError
  else
    let ny := pyRoundDiv n nx
    if nx * ny ≠ n then .error .plateError
    else .ok ⟨n, nx, ny⟩

/-- Model of `re.match('([A-Za-z]{0,1})([0-9]+)', pos)` followed by
`(letter.upper(), int(number))`: an optional leading letter, then a
maximal non-empty digit run; trailing garbage is ignored (`re.match`
only anchors at the start).  `none` models the no-match case, in which
the source's `str2tuple` returns `('', None)`. -/
def str2tuple (s : String) : Option (Option Char × Nat) :=
  match s.data with
  | [] => none
  | c :: rest =>
    if isAsciiLetter c then
      let ds := rest.takeWhile isAsciiDigit
      if ds.isEmpty then none else some (some (pyUpper c), digitsToNat ds)
    else
      let ds := (c :: rest).takeWhile isAsciiDigit
      if ds.isEmpty then none else some (none, digitsToNat ds)

/-- argument of `PlateFormat.pos2int`: a Python `int` or `str`
(int-valued floats behave as the corresponding int). -/
inductive WellPos where
  | int (i : Int)
  | str (s : String)
  deriving DecidableEq, Repr

/-- `PlateFormat.pos2int`.  For a coordinate string, row = alphabet index
of the letter + 1, col = numeric part, linear index `(col-1)*ny + row`.
Checks `r > n` before `not r`; when the regex does not match, the source's
`str2tuple` yields `number = None` and the comparison `None > self.n`
raises `TypeError` in Python 3 (so the `PlateError` branch intended for
unparseable input is unreachable for such strings). -/
def pos2int (f : PlateFormat) (pos : WellPos) : Except PyErr Int :=
  let check : Int → Except PyErr Int := fun r =>
    if r > (f.n : Int) then .error .plateError
    else if r = 0 then .error .plateError
    else .ok r
  match pos with
  | .int i => check i
  | .str s =>
    match str2tuple s with
    | none => .error .typeError
    | some (some letter, number) =>
      let row : Int := (letter.toNat - 65 : Nat) + 1
      check (((number : Int) - 1) * (f.ny : Int) + row)
    | some (none, number) => check (number : Int)

/-- `PlateFormat.int2human`.  `col = int((pos-1)/ny)` truncates toward
zero (float division then `int`), `row = (pos-1) % ny` is Python's
floored modulo; after the bounds check, `string.ascii_uppercase[row]`
raises `IndexError` whenever `row ≥ 26`. -/
def int2human (f : PlateFormat) (pos : Int) : Except PyErr String :=
  let col : Int := Int.tdiv (pos - 1) (f.ny : Int)
  let row : Int := Int.emod (pos - 1) (f.ny : Int)
  if col + 1 > (f.nx : Int) ∨ row > (f.ny : Int) then .error .plateError
  else if row < 26 then
    .ok (String.singleton (Char.ofNat (65 + row.toNat)) ++ toString (col + 1))
  else .error .indexError

end PlateFormat

/-- canonical human coordinate `<row letter><column>` with 0-based `row`
and 1-based `col` — the shape `int2human` produces. -/
def coordStr (row col : Nat) : String :=
  String.singleton (Char.ofNat (65 + row)) ++ toString col

/-- `pos2int(int2human(p))` (forward round trip, Tecan position input). -/
def rtInt (f : PlateFormat) (p : Nat) : Except PyErr Int :=
  (f.int2human (p : Int)).bind fun s => f.pos2int (.str s)

/-- `int2human(pos2int(c))` (reverse round trip, coordinate input). -/
def rtStr (f : PlateFormat) (s : String) : Except PyErr String :=
  (f.pos2int (.str s)).bind fun i => f.int2human i

/-- the standard plate formats as derived by default construction. -/
def pf6 : PlateFormat := ⟨6, 3, 2⟩
def pf12 : PlateFormat := ⟨12, 4, 3⟩
def pf24 : PlateFormat := ⟨24, 6, 4⟩
def pf96 : PlateFormat := ⟨96, 12, 8⟩
def pf384 : PlateFormat := ⟨384, 24, 16⟩
def pf1536 : PlateFormat := ⟨1536, 48, 32⟩

/-! ### Plate (evoware/plates.py) -/

/-- `Plate`: one physical labware item.  `rackTypeTemplate` is the raw
`_rackType` string as stored (the `rackType` property expands it). -/
structure Plate where
  rackLabel : String
  barcode : String
  format : PlateFormat
  rackTypeTemplate : String
  deriving DecidableEq, Repr

namespace Plate

/-- the constructor's default labware type string. -/
def defaultRackType : String := "%i Well Microplate"

/-- number of `%i` placeholders in a template. -/
def percentIcount : List Char → Nat
  | '%' :: 'i' :: rest => 1 + percentIcount rest
  | _ :: rest => percentIcount rest
  | [] => 0

/-- replace the first `%i` placeholder by the decimal rendering of `n`. -/
def substPercentI (n : Nat) : List Char → List Char
  | '%' :: 'i' :: rest => (toString n).data ++ rest
  | c :: rest => c :: substPercentI n rest
  | [] => []

/-- the `rackType` property getter: `self._rackType % self.format.n` when
the template contains a `%i` placeholder.  Python's `%` substitutes the
single specifier; with two or more specifiers and one argument it raises
`TypeError` (no code path in the repository builds such a template, nor
one containing an escaped `%%`). -/
def rackType (p : Plate) : Except PyErr String :=
  match percentIcount p.rackTypeTemplate.data with
  | 0 => .ok p.rackTypeTemplate
  | 1 => .ok (String.mk (substPercentI p.format.n p.rackTypeTemplate.data))
  | _ => .error .typeError

/-- `Plate.byLabel`: True on a non-empty `rackLabel`; else False when both
`barcode` and the expanded `rackType` are non-empty; else `PlateError`.
The Python `and` short-circuits, so the `rackType` property is only
evaluated when `barcode` is truthy. -/
def byLabel (p : Plate) : Except PyErr Bool :=
  if p.rackLabel ≠ "" then .ok true
  else if p.barcode = "" then .error .plateError
  else do
    let rt ← p.rackType
    if rt ≠ "" then .ok false else .error .plateError

/-- `Plate.preferredID`: `rackLabel` when `byLabel()`, else `barcode`;
failures of `byLabel()` propagate. -/
def preferredID (p : Plate) : Except PyErr String := do
  let b ← p.byLabel
  if b then .ok p.rackLabel else .ok p.barcode

end Plate

/-! ### PlateIndex (evoware/plates.py)

The dict subclass may hold arbitrary values if populated through plain
`dict` methods (the tests use `update`), so entries are modelled as a sum;
`__setitem__` ensures values *it* stores are `Plate` instances. -/

/-- a value stored in a `PlateIndex` slot (non-`Plate` alternatives can
only enter by bypassing `__setitem__`). -/
inductive PIValue where
  | plate (p : Plate)
  | str (s : String)
  | int (n : Int)
  deriving DecidableEq, Repr

def PIValue.isPlate : PIValue → Bool
  | .plate _ => true
  | _ => false

/-- `PlateIndex` contents: insertion-ordered key/value pairs. -/
abbrev PlateIndex := List (String × PIValue)

namespace PlateIndex

/-- `PlateIndex.DEFAULT_KEY`. -/
def DEFAULT_KEY : String := "default"

/-- `PlateIndex.__setitem__`: `TypeError` unless the value is a `Plate`;
the error is raised before the underlying dict is touched. -/
def setitem (idx : PlateIndex) (k : String) (v : PIValue) :
    Except PyErr PlateIndex :=
  match v with
  | .plate _ => .ok (dictInsert idx k v)
  | _ => .error .typeError

/-- the `defaultplate` property getter: the entry under `DEFAULT_KEY` if
present, else a fresh `Plate(rackLabel='default', format=PlateFormat(96))`. -/
def defaultplate (idx : PlateIndex) : PIValue :=
  (dictGet? idx DEFAULT_KEY).getD
    (.plate ⟨DEFAULT_KEY, "", pf96, Plate.defaultRackType⟩)

/-- the `defaultplate` property setter: plain item assignment. -/
def set_defaultplate (idx : PlateIndex) (v : PIValue) :
    Except PyErr PlateIndex :=
  setitem idx DEFAULT_KEY v

/-- the `defaultformat` property setter: mutate the existing default
plate's `format` in place, or create and insert a fresh default plate.
Attribute assignment on a non-`Plate` default entry fails (such an entry
cannot have been stored through `__setitem__`). -/
def set_defaultformat (idx : PlateIndex) (pf : PlateFormat) :
    Except PyErr PlateIndex :=
  match dictGet? idx DEFAULT_KEY with
  | some (.plate p) =>
    .ok (dictInsert idx DEFAULT_KEY (.plate { p with format := pf }))
  | some _ => .error .attributeError
  | none => setitem idx DEFAULT_KEY (.plate ⟨DEFAULT_KEY, "", pf, Plate.defaultRackType⟩)

/-- `PlateIndex.getcreate(k, d)`: return the existing entry, or insert
and return `d` (cloning the default plate when `d` is omitted — note the
clone receives the *expanded* `rackType` property value as its template).
Returns the possibly-extended index alongside the value. -/
def getcreate (idx : PlateIndex) (k : String) (d : Option PIValue) :
    Except PyErr (PlateIndex × PIValue) :=
  match dictGet? idx k with
  | some v => .ok (idx, v)
  | none => do
    let d' ← match d with
      | some v => pure v
      | none =>
        match idx.defaultplate with
        | .plate p => do
          let rt ← p.rackType
          pure (PIValue.plate ⟨k, "", p.format, rt⟩)
        | _ => .error .attributeError
    let idx' ← setitem idx k d'
    .ok (idx', d')

/-- every value stored in the index is a `Plate`. -/
def allPlates (idx : PlateIndex) : Prop :=
  ∀ e ∈ idx, (e.2).isPlate = true

end PlateIndex

/-! ### Sample identity (evoware/samples.py) -/

/-- argument of `normalize_sample_id`: a plain ID string or an
`(ID, subID)` tuple.  Numeric IDs (which the source first passes through
`intfloat2int` and `str`) are outside the modelled input domain; no claim
exercises them. -/
inductive SampleIds where
  | single (s : String)
  | pair (a b : String)
  deriving DecidableEq, Repr

/-- the shared tail of `normalize_sample_id`: strip each component, drop
empty strings (`ids = [x for x in ids if x]`), then take the first two. -/
def normalize_core (ids : List String) : String × String :=
  let l := (ids.map pyStrip).filter (fun x => x ≠ "")
  (l.headD "", (l.drop 1).headD "")

/-- `normalize_sample_id(ids)`: a string containing `#` is split on `#`
first; a lone string becomes a one-element list; then `normalize_core`. -/
def normalize_sample_id : SampleIds → String × String
  | .single s => normalize_core (if pyContains s '#' then splitChar '#' s else [s])
  | .pair a b => normalize_core [a, b]

/-- the ID-normalization performed by `Sample.__init__(id=, subid=)`:
when the stripped `subid` is non-empty the pair is normalized together,
otherwise only `id` is normalized (supporting `'ID#subID'` input). -/
def sample_init_ids (id subid : String) : String × String :=
  let s := pyStrip subid
  if s ≠ "" then normalize_sample_id (.pair id subid)
  else normalize_sample_id (.single id)

/-- `Sample`: an addressable well.  `position` is the already-validated
Tecan well number (`Sample.__init__` obtains it via `pos2int`). -/
structure Sample where
  id : String
  subid : String
  plate : Plate
  position : Int
  deriving DecidableEq, Repr

/-- `Sample.fullid`: `id#subid` when there is a sub-ID, else `id`. -/
def Sample.fullid (s : Sample) : String :=
  if s.subid ≠ "" then s.id ++ "#" ++ s.subid else s.id

/-! ### Reaction (evoware/samples.py) -/

/-- `Reaction`: a target sample plus its `sourcevolumes` dict mapping
source `Sample` instances to transfer volumes (insertion-ordered). -/
structure Reaction extends Sample where
  sourcevolumes : List (Sample × Int)
  deriving DecidableEq, Repr

namespace Reaction

/-- `Reaction.sourceIds`: the full ID of every source sample, in
`sourcevolumes` order. -/
def sourceIds (r : Reaction) : List String :=
  r.sourcevolumes.map fun sv => sv.1.fullid

/-- `Reaction.sourceIndex`: the dict `{ts.fullid : (ts, v)}` built from
`sourceItems()` (a later duplicate full ID overwrites an earlier one). -/
def sourceIndex (r : Reaction) : List (String × (Sample × Int)) :=
  r.sourcevolumes.foldl (fun m sv => dictInsert m sv.1.fullid sv) []

/-- `tsample.sourceIndex().get(k, (None, None))` — `none` models the
`(None, None)` default. -/
def sourceIndexGet (r : Reaction) (k : String) : Option (Sample × Int) :=
  dictGet? r.sourceIndex k

end Reaction

/-! ### Reaction.updateFields type gate (evoware/samples.py)

`updateFields` receives an arbitrary Python dict; keys and values are
modelled as small sums so the `isinstance` asserts are expressible. -/

/-- a Python object appearing as a `sourcevolumes` key. -/
inductive SVKey where
  | sample (s : Sample)
  | str (s : String)
  deriving DecidableEq, Repr

/-- a Python object appearing as a `sourcevolumes` value
(`num` covers `numbers.Number`). -/
inductive SVVal where
  | num (n : Int)
  | str (s : String)
  deriving DecidableEq, Repr

def SVKey.isSample : SVKey → Bool
  | .sample _ => true
  | _ => false

def SVVal.isNumber : SVVal → Bool
  | .num _ => true
  | _ => false

/-- `Reaction.updateFields(sourcevolumes=...)`: asserts that the *first*
key is a `Sample` and the *first* value is a `numbers.Number` (only when
the dict is non-empty), then assigns `self.sourcevolumes`.  Returns the
stored dict. -/
def reaction_updateFields_sourcevolumes (svs : List (SVKey × SVVal)) :
    Except PyErr (List (SVKey × SVVal)) :=
  match svs with
  | [] => .ok []
  | (k, v) :: _ =>
    if ¬ k.isSample then .error .assertionError
    else if ¬ v.isNumber then .error .assertionError
    else .ok svs

/-- every key is a `Sample` and every value numeric — what claim C8 says
`updateFields` enforces. -/
def wellTypedSourcevolumes (svs : List (SVKey × SVVal)) : Prop :=
  ∀ e ∈ svs, (e.1).isSample = true ∧ (e.2).isNumber = true

instance (svs : List (SVKey × SVVal)) : Decidable (wellTypedSourcevolumes svs) := by
  unfold wellTypedSourcevolumes; infer_instance

/-! ### SampleIndex (evoware/samples.py) -/

/-- `SampleIndex`: dict from full ID to `Sample`, plus the
`relaxed_id` constructor flag. -/
structure SampleIndex where
  relaxed : Bool
  map : List (String × Sample)
  deriving DecidableEq, Repr

namespace SampleIndex

/-- `SampleIndex.add`: register under `sample.fullid`, silently
overwriting an earlier sample with the same full ID. -/
def add (idx : SampleIndex) (s : Sample) : SampleIndex :=
  { idx with map := dictInsert idx.map s.fullid s }

/-- `k.split('#')[0]` — the main-ID portion of a stored key. -/
def mainIdOf (k : String) : String := (splitChar '#' k).headD ""

/-- `SampleIndex.get(key, default, relaxed)`: normalize the key like
`Sample` does; when relaxed matching applies and the exact key is absent,
return the first entry (insertion order) whose main-ID portion equals the
key; otherwise the exact entry, the default, or `KeyError`. -/
def get (idx : SampleIndex) (key : String) (default : Option Sample)
    (relaxed : Option Bool) : Except PyErr Sample :=
  let n := normalize_sample_id (.single key)
  let key := if n.2 ≠ "" then n.1 ++ "#" ++ n.2 else n.1
  let relaxed := relaxed.getD idx.relaxed
  let scan : Option (String × Sample) :=
    if relaxed ∧ (dictGet? idx.map key).isNone then
      idx.map.find? fun kv => mainIdOf kv.1 = key
    else none
  match scan with
  | some kv => .ok kv.2
  | none =>
    match dictGet? idx.map key with
    | some v => .ok v
    | none =>
      match default with
      | some d => .ok d
      | none => .error .keyError

end SampleIndex

/-! ### Worklist / transfer engine (evoware/worklist.py, sampleworklist.py)

A worklist is modelled by the list of text lines written to the output
file, in order; a raised exception aborts the run (lines written before
the failure are not tracked — no claim depends on them). -/

namespace Worklist

/-- `str(tipMask or '')`: `None` and `0` are falsy. -/
def tipMaskStr : Option Int → String
  | none => ""
  | some 0 => ""
  | some m => toString m

/-- `Worklist.aspirate`: emits
`A;rackLabel;rackID;rackType;position;tubeID;volume;liquidClass;tipMask;`
after checking that a rack label or a (rack ID, rack type) pair is given.
Parameters appear in the source's keyword order. -/
def aspirate (rackID rackLabel rackType : String) (position : Int)
    (tubeID : String) (volume : Int) (liquidClass : String)
    (tipMask : Option Int) : Except PyErr (List String) :=
  if ¬ (rackLabel ≠ "" ∨ (rackID ≠ "" ∧ rackType ≠ "")) then
    .error .worklistException
  else
    .ok ["A;" ++ rackLabel ++ ";" ++ rackID ++ ";" ++ rackType ++ ";" ++
         toString position ++ ";" ++ tubeID ++ ";" ++ toString volume ++ ";" ++
         liquidClass ++ ";" ++ tipMaskStr tipMask ++ ";\n"]

/-- `Worklist.A`: aspirate shortcut dispatching on `byLabel`. -/
def A (rackID : String) (position : Int) (volume : Int) (byLabel : Bool)
    (rackType : String) : Except PyErr (List String) :=
  if ¬ byLabel then aspirate rackID "" rackType position "" volume "" none
  else aspirate "" rackID "" position "" volume "" none

/-- `Worklist.dispense`: like `aspirate` with a `D;` line, plus a `W;`
wash line when `wash` is set. -/
def dispense (rackID rackLabel rackType : String) (position : Int)
    (tubeID : String) (volume : Int) (liquidClass : String)
    (tipMask : Option Int) (wash : Bool) : Except PyErr (List String) :=
  if ¬ (rackLabel ≠ "" ∨ (rackID ≠ "" ∧ rackType ≠ "")) then
    .error .worklistException
  else
    .ok (["D;" ++ rackLabel ++ ";" ++ rackID ++ ";" ++ rackType ++ ";" ++
          toString position ++ ";" ++ tubeID ++ ";" ++ toString volume ++ ";" ++
          liquidClass ++ ";" ++ tipMaskStr tipMask ++ ";\n"] ++
         if wash then ["W;\n"] else [])

/-- `Worklist.D`: dispense shortcut dispatching on `byLabel`. -/
def D (rackID : String) (position : Int) (volume : Int) (wash : Bool)
    (byLabel : Bool) (rackType : String) : Except PyErr (List String) :=
  if ¬ byLabel then dispense rackID "" rackType position "" volume "" none wash
  else dispense "" rackID "" position "" volume "" none wash

end Worklist

namespace SampleWorklist

/-- `SampleWorklist.transferSample`: one aspirate from the source sample's
well and one dispense into the destination sample's well.  The arguments
to `A`/`D` (`preferredID()`, `byLabel()`, the `rackType` property) are
evaluated in the source's order, so their failures propagate first. -/
def transferSample (src dst : Sample) (volume : Int) (wash : Bool) :
    Except PyErr (List String) := do
  let srcID ← src.plate.preferredID
  let srcBL ← src.plate.byLabel
  let srcRT ← src.plate.rackType
  let la ← Worklist.A srcID src.position volume srcBL srcRT
  let dstID ← dst.plate.preferredID
  let dstBL ← dst.plate.byLabel
  let dstRT ← dst.plate.rackType
  let ld ← Worklist.D dstID dst.position volume wash dstBL dstRT
  pure (la ++ ld)

/-- `SampleWorklist.getReagentKeys`: all source IDs over all targets, in
first-seen order, without duplicates. -/
def getReagentKeys (targets : List Reaction) : List String :=
  targets.foldl
    (fun keys ts =>
      ts.sourceIds.foldl (fun ks k => if k ∈ ks then ks else ks ++ [k]) keys)
    []

/-- the body of `distributeSamples`' inner loop for one (key, target)
pair: look the key up in the target's source index and transfer when a
source sample is present with a truthy (non-zero) volume. -/
def processPair (wash : Bool) (k : String) (t : Reaction) :
    Except PyErr (List String) :=
  match t.sourceIndexGet k with
  | none => .ok []
  | some (src, vol) =>
    if vol ≠ 0 then transferSample src t.toSample vol wash else .ok []

/-- `distributeSamples`' inner loop: all targets, in list order, for one
reagent key. -/
def processTargets (wash : Bool) (k : String) :
    List Reaction → Except PyErr (List String)
  | [] => .ok []
  | t :: ts => do
    let l ← processPair wash k t
    let r ← processTargets wash k ts
    pure (l ++ r)

/-- `distributeSamples`' outer loop: reagent keys in order. -/
def processKeys (wash : Bool) (targets : List Reaction) :
    List String → Except PyErr (List String)
  | [] => .ok []
  | k :: ks => do
    let l ← processTargets wash k targets
    let r ← processKeys wash targets ks
    pure (l ++ r)

/-- `SampleWorklist.distributeSamples(targetsamples, reagentkeys, wash)`:
`reagentkeys or self.getReagentKeys(...)` (an empty tuple is falsy), then
the reagent-major outer loop over targets. -/
def distributeSamples (targets : List Reaction) (reagentkeys : List String)
    (wash : Bool) : Except PyErr (List String) :=
  let keys := if reagentkeys = [] then getReagentKeys targets else reagentkeys
  processKeys wash targets keys

end SampleWorklist

/-! ### The end-to-end scenario of spec §8 / the sampleworklist test -/

namespace Scenario

/-- source plate `R01` (label only, default 96-well format). -/
def plateR01 : Plate := ⟨"R01", "", pf96, Plate.defaultRackType⟩

/-- source plate `R02` (label only, default 96-well format). -/
def plateR02 : Plate := ⟨"R02", "", pf96, Plate.defaultRackType⟩

/-- target plate `T01` (label only, 384-well format). -/
def plateT01 : Plate := ⟨"T01", "", pf384, Plate.defaultRackType⟩

/-- source sample `reagent1` at position 1 of `R01`. -/
def reagent1 : Sample := ⟨"reagent1", "", plateR01, 1⟩

/-- source sample `reagent2` at `A1` (= position 1) of `R02`. -/
def reagent2 : Sample := ⟨"reagent2", "", plateR02, 1⟩

/-- first target: `1#a` at position 10 of `T01`, wants 20 of `reagent1`
and 100 of `reagent2`. -/
def target1 : Reaction :=
  ⟨⟨"1", "a", plateT01, 10⟩, [(reagent1, 20), (reagent2, 100)]⟩

/-- second target: `2#a` at position 11 of `T01`, wants 40 of `reagent1`
and 0 of `reagent2`. -/
def target2 : Reaction :=
  ⟨⟨"2", "a", plateT01, 11⟩, [(reagent1, 40), (reagent2, 0)]⟩

/-- the nine-line reference worklist of the `wash=True` run. -/
def linesWash : List String :=
  ["A;R01;;;1;;20;;;\n", "D;T01;;;10;;20;;;\n", "W;\n",
   "A;R01;;;1;;40;;;\n", "D;T01;;;11;;40;;;\n", "W;\n",
   "A;R02;;;1;;100;;;\n", "D;T01;;;10;;100;;;\n", "W;\n"]

/-- the six-line reference worklist of the `wash=False` run. -/
def linesNoWash : List String :=
  ["A;R01;;;1;;20;;;\n", "D;T01;;;10;;20;;;\n",
   "A;R01;;;1;;40;;;\n", "D;T01;;;11;;40;;;\n",
   "A;R02;;;1;;100;;;\n", "D;T01;;;10;;100;;;\n"]

end Scenario

/-! ## Claim theorems -/

/-- Claim C1: in the spec §8 end-to-end scenario (`reagent1` at position 1
of the 96-well plate `R01`, `reagent2` at `A1` of `R02`; targets on the
384-well plate `T01` at positions 10 and 11 with source volumes
`{reagent1:20, reagent2:100}` and `{reagent1:40, reagent2:0}`),
`distributeSamples` with `wash=True` writes exactly the nine reference
lines in reagent-major order with the zero-volume pair omitted, and with
`wash=False` the same sequence minus every `W;` line. -/
theorem C1_distributeSamples_scenario :
    SampleWorklist.distributeSamples [Scenario.target1, Scenario.target2] [] true
      = .ok Scenario.linesWash
    ∧ SampleWorklist.distributeSamples [Scenario.target1, Scenario.target2] [] false
      = .ok Scenario.linesNoWash
    ∧ pf96.pos2int (.str "A1") = .ok 1 := by
  refine ⟨by decide, by decide, by decide⟩

/-! Bounded round-trip checks for the 1536-well format, in blocks of 384
positions (kept small so kernel reduction stays within stack limits). -/

theorem rt1536_block1 : ∀ q, q < 384 → (1 + q - 1) % 32 < 26 →
    rtInt pf1536 (1 + q) = .ok ((1 + q : Nat) : Int) := by decide

theorem rt1536_block2 : ∀ q, q < 384 → (385 + q - 1) % 32 < 26 →
    rtInt pf1536 (385 + q) = .ok ((385 + q : Nat) : Int) := by decide

theorem rt1536_block3 : ∀ q, q < 384 → (769 + q - 1) % 32 < 26 →
    rtInt pf1536 (769 + q) = .ok ((769 + q : Nat) : Int) := by decide

theorem rt1536_block4 : ∀ q, q < 384 → (1153 + q - 1) % 32 < 26 →
    rtInt pf1536 (1153 + q) = .ok ((1153 + q : Nat) : Int) := by decide

/-- Claim C2 (counterexample): for the standard 1536-well format the
claimed round trip `pos2int(int2human(p)) == p` already fails at the
valid position `p = 27`: the 1536-well plate has 32 rows, position 27
lies in row index 26, and `string.ascii_uppercase[26]` raises
`IndexError`. -/
theorem C2_roundtrip_counterexample :
    rtInt pf1536 27 = .error .indexError ∧ 27 ≤ pf1536.n ∧
    PlateFormat.init 1536 = .ok pf1536 := by decide

/-- Claim C2 (amended): `pos2int` and `int2human` are exact inverses on
every valid position whose row index is below 26 — that is all positions
of the 6-, 12-, 24-, 96- and 384-well formats, and the positions of the
1536-well format lying in rows A..Z; `int2human` raises `IndexError` on
the remaining 1536-well positions (rows 27..32 have no single-letter
name).  Conversely `int2human(pos2int(c)) == c` for every in-bounds
coordinate string `<uppercase letter><column>`. -/
theorem C2_roundtrip_amended :
    (∀ f, f ∈ [pf6, pf12, pf24, pf96, pf384] →
      ∀ p, p ≤ f.n → 1 ≤ p → rtInt f p = .ok (p : Int))
    ∧ (∀ p, p ≤ 1536 → 1 ≤ p → (p - 1) % 32 < 26 →
        rtInt pf1536 p = .ok (p : Int))
    ∧ (∀ f, f ∈ [pf6, pf12, pf24, pf96, pf384, pf1536] →
        ∀ row, row < f.ny → row < 26 →
          ∀ col, col ≤ f.nx → 1 ≤ col →
            rtStr f (coordStr row col) = .ok (coordStr row col)) := by
  refine ⟨?_, ?_, ?_⟩
  · intro f hf
    fin_cases hf <;> decide
  · intro p hp hp1 hrow
    rcases Nat.lt_or_ge p 385 with h | h
    · obtain ⟨q, hq, rfl⟩ : ∃ q, q < 384 ∧ p = 1 + q := ⟨p - 1, by omega, by omega⟩
      exact rt1536_block1 q hq hrow
    rcases Nat.lt_or_ge p 769 with h2 | h2
    · obtain ⟨q, hq, rfl⟩ : ∃ q, q < 384 ∧ p = 385 + q := ⟨p - 385, by omega, by omega⟩
      exact rt1536_block2 q hq hrow
    rcases Nat.lt_or_ge p 1153 with h3 | h3
    · obtain ⟨q, hq, rfl⟩ : ∃ q, q < 384 ∧ p = 769 + q := ⟨p - 769, by omega, by omega⟩
      exact rt1536_block3 q hq hrow
    · obtain ⟨q, hq, rfl⟩ : ∃ q, q < 384 ∧ p = 1153 + q := ⟨p - 1153, by omega, by omega⟩
      exact rt1536_block4 q hq hrow
  · intro f hf
    fin_cases hf <;> decide

/-- Claim C2 (witness): the amended round trip applied at concrete
inputs (position 10 of the 96-well format; coordinate `A1`). -/
theorem C2_roundtrip_amended_witness :
    rtInt pf96 10 = .ok (10 : Int) ∧
    rtStr pf96 (coordStr 0 1) = .ok (coordStr 0 1) :=
  ⟨C2_roundtrip_amended.1 pf96 (by decide) 10 (by decide) (by decide),
   C2_roundtrip_amended.2.2 pf96 (by decide) 0 (by decide) (by decide)
     1 (by decide) (by decide)⟩

/-- Claim C5 (counterexample): default construction does not fail for
every well count outside the standard family — `PlateFormat(4)` derives
`nx = round(sqrt(6)) = 2`, `ny = round(4/2) = 2`, passes the `nx*ny == n`
check and succeeds, although 4 is not in {1,2,6,12,24,48,96,384,1536}. -/
theorem C5_format_counterexample :
    PlateFormat.init 4 = .ok ⟨4, 2, 2⟩ ∧
    (4 : Nat) ∉ [1, 2, 6, 12, 24, 48, 96, 384, 1536] := by decide

/-- Claim C5 (amended): default construction succeeds with the expected
3:2-derived dimensions for every count in the standard family; whenever
it succeeds the derived dimensions satisfy `nx * ny = n`; for positive
counts it never raises `ZeroDivisionError` (only `n = 0` does); but for
counts outside the family it does not uniformly fail — it fails with a
plate format error exactly when the rounding heuristic misses (e.g. 8),
and succeeds on some non-family counts such as 4. -/
theorem C5_format_init :
    PlateFormat.init 1 = .ok ⟨1, 1, 1⟩ ∧
    PlateFormat.init 2 = .ok ⟨2, 2, 1⟩ ∧
    PlateFormat.init 6 = .ok ⟨6, 3, 2⟩ ∧
    PlateFormat.init 12 = .ok ⟨12, 4, 3⟩ ∧
    PlateFormat.init 24 = .ok ⟨24, 6, 4⟩ ∧
    PlateFormat.init 48 = .ok ⟨48, 8, 6⟩ ∧
    PlateFormat.init 96 = .ok ⟨96, 12, 8⟩ ∧
    PlateFormat.init 384 = .ok ⟨384, 24, 16⟩ ∧
    PlateFormat.init 1536 = .ok ⟨1536, 48, 32⟩ ∧
    (∀ n f, PlateFormat.init n = .ok f → f.n = n ∧ f.nx * f.ny = n) ∧
    (∀ n, 0 < n → PlateFormat.init n ≠ .error .zeroDivisionError) ∧
    PlateFormat.init 8 = .error .plateError ∧
    PlateFormat.init 4 = .ok ⟨4, 2, 2⟩ := by
  refine ⟨by decide, by decide, by decide, by decide, by decide, by decide,
    by decide, by decide, by decide, ?_, ?_, by decide, by decide⟩
  · intro n f hok
    unfold PlateFormat.init at hok
    by_cases h0 : PlateFormat.derive_nx n = 0
    · simp [h0] at hok
    · simp only [h0, if_false] at hok
      by_cases hne : PlateFormat.derive_nx n * PlateFormat.pyRoundDiv n (PlateFormat.derive_nx n) ≠ n
      · simp [hne] at hok
      · simp only [hne, if_false] at hok
        simp only [ne_eq, not_not] at hne
        cases hok
        exact ⟨rfl, hne⟩
  · intro n hn h
    unfold PlateFormat.init at h
    by_cases h0 : PlateFormat.derive_nx n = 0
    · revert h0
      unfold PlateFormat.derive_nx
      intro h0
      by_cases hc : (2 * PlateFormat.isqrt (3 * n / 2) + 1) ^ 2 ≤ 6 * n
      · simp [hc] at h0
      · simp only [hc, if_false] at h0
        rw [h0] at hc
        omega
    · simp only [h0, if_false] at h
      by_cases hne : PlateFormat.derive_nx n * PlateFormat.pyRoundDiv n (PlateFormat.derive_nx n) ≠ n
      · simp [hne] at h
      · simp [hne] at h

/-- Claim C5 (witness): the success characterization applied to the
concrete 96-well construction, and non-zero-division at 96. -/
theorem C5_format_init_witness :
    (⟨96, 12, 8⟩ : PlateFormat).n = 96 ∧ (12 : Nat) * 8 = 96 ∧
    PlateFormat.init 96 ≠ .error .zeroDivisionError :=
  ⟨(C5_format_init.2.2.2.2.2.2.2.2.2.1 96 ⟨96, 12, 8⟩ (by decide)).1,
   (C5_format_init.2.2.2.2.2.2.2.2.2.1 96 ⟨96, 12, 8⟩ (by decide)).2,
   C5_format_init.2.2.2.2.2.2.2.2.2.2.1 96 (by decide)⟩

/-- Claim C6: evaluation of `pos2int` on the claim's three failure
classes (96-well format).  An input that parses to no number — e.g. the
bare letter `'A'`, or `''`, or `'xyz'` — does *not* raise the documented
plate format error: `str2tuple` returns `('', None)` and the Python 3
comparison `None > self.n` raises `TypeError` instead (in Python 2 the
comparison was legal and the `raise PlateError('invalid plate position')`
line caught this case, which shows the intent).  Index 0 and indices
beyond `n` do raise `PlateError` as claimed, and other inputs return the
computed index. -/
theorem C6_pos2int_errors :
    pf96.pos2int (.str "A") = .error .typeError ∧
    pf96.pos2int (.str "") = .error .typeError ∧
    pf96.pos2int (.str "xyz") = .error .typeError ∧
    pf96.pos2int (.str "A") ≠ .error .plateError ∧
    pf96.pos2int (.str "0") = .error .plateError ∧
    pf96.pos2int (.int 0) = .error .plateError ∧
    pf96.pos2int (.str "A13") = .error .plateError ∧
    pf96.pos2int (.int 97) = .error .plateError ∧
    pf96.pos2int (.str "h12") = .ok 96 ∧
    pf96.pos2int (.int 42) = .ok 42 := by decide

/-- Claim C7: a plate with a non-empty `rackLabel` reports
`byLabel() == True` and `preferredID()` returns the label (whether or not
a barcode is set); with an empty label but non-empty barcode and expanded
rack type, `byLabel() == False` and `preferredID()` returns the barcode;
when neither identification is possible both raise `PlateError`. -/
theorem C7_plate_identification (p : Plate) :
    (p.rackLabel ≠ "" → p.byLabel = .ok true ∧ p.preferredID = .ok p.rackLabel)
    ∧ (p.rackLabel = "" → p.barcode ≠ "" →
        ∀ rt, p.rackType = .ok rt → rt ≠ "" →
          p.byLabel = .ok false ∧ p.preferredID = .ok p.barcode)
    ∧ (p.rackLabel = "" → (p.barcode = "" ∨ p.rackType = .ok "") →
        p.byLabel = .error .plateError ∧ p.preferredID = .error .plateError) := by
  refine ⟨?_, ?_, ?_⟩
  · intro h
    constructor
    · simp [Plate.byLabel, h]
    · simp [Plate.preferredID, Plate.byLabel, h, Bind.bind, Except.bind]
  · intro hl hb rt hrt hne
    have hby : p.byLabel = .ok false := by
      simp [Plate.byLabel, hl, hb, Bind.bind, Except.bind, hrt, hne]
    exact ⟨hby, by simp [Plate.preferredID, hby, Bind.bind, Except.bind]⟩
  · intro hl hcase
    rcases hcase with hb | hrt
    · have hby : p.byLabel = .error .plateError := by
        simp [Plate.byLabel, hl, hb]
      exact ⟨hby, by simp [Plate.preferredID, hby, Bind.bind, Except.bind]⟩
    · have hby : p.byLabel = .error .plateError := by
        by_cases hb : p.barcode = ""
        · simp [Plate.byLabel, hl, hb]
        · simp [Plate.byLabel, hl, hb, Bind.bind, Except.bind, hrt]
      exact ⟨hby, by simp [Plate.preferredID, hby, Bind.bind, Except.bind]⟩

/-- Claim C7 (witness): the three identification regimes at concrete
plates (label + barcode; barcode + type only; nothing). -/
theorem C7_plate_identification_witness :
    (Plate.byLabel ⟨"L1", "BC1", pf96, Plate.defaultRackType⟩ = .ok true ∧
     Plate.preferredID ⟨"L1", "BC1", pf96, Plate.defaultRackType⟩ = .ok "L1") ∧
    (Plate.byLabel ⟨"", "BC1", pf96, Plate.defaultRackType⟩ = .ok false ∧
     Plate.preferredID ⟨"", "BC1", pf96, Plate.defaultRackType⟩ = .ok "BC1") ∧
    (Plate.byLabel ⟨"", "", pf96, Plate.defaultRackType⟩ = .error .plateError ∧
     Plate.preferredID ⟨"", "", pf96, Plate.defaultRackType⟩ = .error .plateError) :=
  ⟨(C7_plate_identification _).1 (by decide),
   (C7_plate_identification _).2.1 (by decide) (by decide)
     "96 Well Microplate" (by decide) (by decide),
   (C7_plate_identification _).2.2 (by decide) (Or.inl (by decide))⟩

/-- Claim C9: sample-ID normalization silently promotes the sub-ID to the
main ID when the primary ID normalizes to nothing: for every pair whose
first component strips to the empty string (and normalizes to `('','')`),
both `normalize_sample_id` on the tuple and the `Sample.__init__`
id/subid computation yield `(normalized second component, '')` — never an
empty ID carrying a sub-ID. -/
theorem C9_empty_id_promotes_subid (a b : String)
    (ha : pyStrip a = "") (hn : normalize_sample_id (.single a) = ("", "")) :
    normalize_sample_id (.pair a b) = (pyStrip b, "") ∧
    sample_init_ids a b = (pyStrip b, "") := by
  have hpair : normalize_sample_id (.pair a b) = (pyStrip b, "") := by
    by_cases hb : pyStrip b = ""
    · simp [normalize_sample_id, normalize_core, ha, hb]
    · simp [normalize_sample_id, normalize_core, ha, hb]
  refine ⟨hpair, ?_⟩
  unfold sample_init_ids
  by_cases hb : pyStrip b = ""
  · simp only [hb, ne_eq, not_true_eq_false, if_false]
    rw [hn]
  · simp only [hb, ne_eq, not_false_eq_true, if_true]
    exact hpair

/-- Claim C9 (witness): `normalize_sample_id(('', 'a'))` and
`Sample(id='', subid='a')` both produce id `'a'` with empty sub-ID. -/
theorem C9_empty_id_promotes_subid_witness :
    normalize_sample_id (.pair "" "a") = ("a", "") ∧
    sample_init_ids "" "a" = ("a", "") :=
  C9_empty_id_promotes_subid "" "a" (by decide) (by decide)

/-- Claim C8 (counterexample): `Reaction.updateFields` accepts and stores
a `sourcevolumes` dict whose *second* key is not a `Sample` and whose
second value is not numeric — only the first key/value pair is checked —
so it does not enforce that every key is a `Sample` and every value
numeric. -/
theorem C8_updateFields_counterexample :
    reaction_updateFields_sourcevolumes
        [(.sample Scenario.reagent1, .num 5), (.str "oops", .str "NaN")]
      = .ok [(.sample Scenario.reagent1, .num 5), (.str "oops", .str "NaN")] ∧
    ¬ wellTypedSourcevolumes
        [(.sample Scenario.reagent1, .num 5), (.str "oops", .str "NaN")] := by
  constructor
  · decide
  · decide

/-- Claim C8 (amended): `updateFields` validates only the first entry of
a non-empty `sourcevolumes` dict: it fails with `AssertionError` (before
assignment) iff the first key is not a `Sample` or the first value is not
a number, and otherwise stores the dict unchanged — even when later
entries are ill-typed. -/
theorem C8_updateFields_first_entry_only :
    (reaction_updateFields_sourcevolumes [] = .ok []) ∧
    (∀ k v rest,
      reaction_updateFields_sourcevolumes ((k, v) :: rest) =
        if k.isSample && v.isNumber then .ok ((k, v) :: rest)
        else .error .assertionError) := by
  refine ⟨rfl, ?_⟩
  intro k v rest
  cases k <;> cases v <;> simp [reaction_updateFields_sourcevolumes,
    SVKey.isSample, SVVal.isNumber]

/-! concrete sample index for the relaxed-lookup claim -/

/-- plate carrying the relaxed-lookup example samples. -/
def sbPlate : Plate := ⟨"plateA", "", pf96, Plate.defaultRackType⟩

/-- the sample registered as `sb0101#2`. -/
def sb0101 : Sample := ⟨"sb0101", "2", sbPlate, 1⟩

/-- the sample registered as `sb0104#1`. -/
def sb0104 : Sample := ⟨"sb0104", "1", sbPlate, 2⟩

/-- a `SampleIndex` with relaxed matching holding the two samples. -/
def sbIndex : SampleIndex :=
  ((SampleIndex.mk true []).add sb0101).add sb0104

/-- Claim C4: with relaxed matching enabled, a bare-ID key (one whose
normalization carries no sub-ID) with no exact entry resolves to the
first sample in insertion order whose main-ID portion (text before `#`)
equals the key; when nothing matches, `get` returns the supplied default
or raises `KeyError`.  Concretely, with `sb0101#2` and `sb0104#1`
registered, `index['sb0101']` returns the sample stored under
`sb0101#2` and `index['sb0104']` the one under `sb0104#1`. -/
theorem C4_relaxed_lookup :
    (∀ (idx : SampleIndex) (key : String),
      idx.relaxed = true →
      (normalize_sample_id (.single key)).2 = "" →
      dictGet? idx.map (normalize_sample_id (.single key)).1 = none →
      (SampleIndex.get idx key none none =
        match idx.map.find? (fun kv =>
            SampleIndex.mainIdOf kv.1 = (normalize_sample_id (.single key)).1) with
        | some kv => .ok kv.2
        | none => .error .keyError)
      ∧ ∀ d, SampleIndex.get idx key (some d) none =
        match idx.map.find? (fun kv =>
            SampleIndex.mainIdOf kv.1 = (normalize_sample_id (.single key)).1) with
        | some kv => .ok kv.2
        | none => .ok d)
    ∧ SampleIndex.get sbIndex "sb0101" none none = .ok sb0101
    ∧ SampleIndex.get sbIndex "sb0101#2" none none = .ok sb0101
    ∧ SampleIndex.get sbIndex "sb0104" none none = .ok sb0104
    ∧ SampleIndex.get sbIndex "sb0104#1" none none = .ok sb0104
    ∧ SampleIndex.get sbIndex "sb0199" none none = .error .keyError
    ∧ SampleIndex.get sbIndex "sb0199" (some sb0101) none = .ok sb0101 := by
  refine ⟨?_, by decide, by decide, by decide, by decide, by decide, by decide⟩
  intro idx key hrel hsub hmiss
  unfold SampleIndex.get
  simp only [hsub, ne_eq, not_true_eq_false, if_false, hrel, Option.getD,
    hmiss, Option.isNone_none, and_true, if_true]
  constructor
  · cases hf : idx.map.find? (fun kv =>
        SampleIndex.mainIdOf kv.1 = (normalize_sample_id (.single key)).1) <;>
      simp [hf, hmiss]
  · intro d
    cases hf : idx.map.find? (fun kv =>
        SampleIndex.mainIdOf kv.1 = (normalize_sample_id (.single key)).1) <;>
      simp [hf, hmiss]

/-- Claim C4 (witness): the relaxed-lookup characterization applied to
the concrete index at key `sb0101`. -/
theorem C4_relaxed_lookup_witness :
    SampleIndex.get sbIndex "sb0101" none none =
      (match sbIndex.map.find? (fun kv =>
          SampleIndex.mainIdOf kv.1 = (normalize_sample_id (.single "sb0101")).1) with
        | some kv => .ok kv.2
        | none => .error .keyError) :=
  (C4_relaxed_lookup.1 sbIndex "sb0101" (by decide) (by decide) (by decide)).1

/-- inserting a `Plate` value preserves the all-`Plate` invariant. -/
theorem allPlates_dictInsert (idx : PlateIndex) (k : String) (q : Plate)
    (h : PlateIndex.allPlates idx) :
    PlateIndex.allPlates (dictInsert idx k (.plate q)) := by
  induction idx with
  | nil =>
    intro e he
    simp [dictInsert] at he
    simp [he, PIValue.isPlate]
  | cons hd tl ih =>
    intro e he
    rw [dictInsert] at he
    by_cases hk : hd.1 = k
    · simp only [hk, if_true] at he
      rcases List.mem_cons.mp he with rfl | htl
      · simp [PIValue.isPlate]
      · exact h e (List.mem_cons_of_mem _ htl)
    · simp only [hk, if_false] at he
      rcases List.mem_cons.mp he with rfl | htl
      · exact h _ (List.mem_cons_self _ _)
      · exact ih (fun e' he' => h e' (List.mem_cons_of_mem _ he')) e htl

/-- Claim C10: every insertion routed through `PlateIndex.__setitem__`
(direct key assignment, `getcreate`, and the `defaultplate` /
`defaultformat` setters) raises `TypeError` when the stored value would
not be a `Plate` — the error fires before the dict is touched, so the
index is unchanged — and every successful operation preserves the
invariant that all stored values are `Plate` instances. -/
theorem C10_plateindex_typed :
    (∀ (idx : PlateIndex) (k : String) (v : PIValue),
      v.isPlate = false → PlateIndex.setitem idx k v = .error .typeError)
    ∧ (∀ (idx : PlateIndex) (k : String) (v : PIValue) (idx' : PlateIndex),
        PlateIndex.setitem idx k v = .ok idx' →
        v.isPlate = true ∧ (PlateIndex.allPlates idx → PlateIndex.allPlates idx'))
    ∧ (∀ (idx : PlateIndex) (k : String) (v : PIValue),
        v.isPlate = false → dictGet? idx k = none →
        PlateIndex.getcreate idx k (some v) = .error .typeError)
    ∧ (∀ (idx : PlateIndex) (k : String) (d : Option PIValue) res,
        PlateIndex.getcreate idx k d = .ok res →
        PlateIndex.allPlates idx → PlateIndex.allPlates res.1)
    ∧ (∀ (idx : PlateIndex) (v : PIValue),
        v.isPlate = false → PlateIndex.set_defaultplate idx v = .error .typeError)
    ∧ (∀ (idx : PlateIndex) (v : PIValue) (idx' : PlateIndex),
        PlateIndex.set_defaultplate idx v = .ok idx' →
        PlateIndex.allPlates idx → PlateIndex.allPlates idx')
    ∧ (∀ (idx : PlateIndex) (pf : PlateFormat) (idx' : PlateIndex),
        PlateIndex.set_defaultformat idx pf = .ok idx' →
        PlateIndex.allPlates idx → PlateIndex.allPlates idx') := by
  have hset_err : ∀ (idx : PlateIndex) (k : String) (v : PIValue),
      v.isPlate = false → PlateIndex.setitem idx k v = .error .typeError := by
    intro idx k v hv
    cases v <;> simp_all [PlateIndex.setitem, PIValue.isPlate]
  have hset_ok : ∀ (idx : PlateIndex) (k : String) (v : PIValue) (idx' : PlateIndex),
      PlateIndex.setitem idx k v = .ok idx' →
      v.isPlate = true ∧ (PlateIndex.allPlates idx → PlateIndex.allPlates idx') := by
    intro idx k v idx' hok
    cases v with
    | plate q =>
      refine ⟨rfl, ?_⟩
      simp only [PlateIndex.setitem, Except.ok.injEq] at hok
      subst hok
      exact allPlates_dictInsert idx k q
    | str s => simp [PlateIndex.setitem] at hok
    | int n => simp [PlateIndex.setitem] at hok
  refine ⟨hset_err, hset_ok, ?_, ?_, ?_, ?_, ?_⟩
  · intro idx k v hv hmiss
    unfold PlateIndex.getcreate
    rw [hmiss]
    simp only [Bind.bind, Except.bind, pure, Except.pure]
    rw [hset_err idx k v hv]
  · intro idx k d res hok hall
    unfold PlateIndex.getcreate at hok
    cases hget : dictGet? idx k with
    | some v =>
      rw [hget] at hok
      cases hok
      exact hall
    | none =>
      rw [hget] at hok
      rcases d with _ | v
      · cases hdef : idx.defaultplate with
        | plate p =>
          rw [hdef] at hok
          simp only [Bind.bind, Except.bind] at hok
          cases hrt : p.rackType with
          | error e => rw [hrt] at hok; cases hok
          | ok rt =>
            rw [hrt] at hok
            simp only [pure, Except.pure] at hok
            cases hs : PlateIndex.setitem idx k (.plate ⟨k, "", p.format, rt⟩) with
            | error e => rw [hs] at hok; cases hok
            | ok idx' =>
              rw [hs] at hok
              cases hok
              exact (hset_ok idx k _ idx' hs).2 hall
        | str s => rw [hdef] at hok; cases hok
        | int n => rw [hdef] at hok; cases hok
      · simp only [Bind.bind, Except.bind, pure, Except.pure] at hok
        cases hs : PlateIndex.setitem idx k v with
        | error e => rw [hs] at hok; cases hok
        | ok idx' =>
          rw [hs] at hok
          cases hok
          exact (hset_ok idx k v idx' hs).2 hall
  · intro idx v hv
    exact hset_err idx PlateIndex.DEFAULT_KEY v hv
  · intro idx v idx' hok hall
    exact (hset_ok idx PlateIndex.DEFAULT_KEY v idx' hok).2 hall
  · intro idx pf idx' hok hall
    unfold PlateIndex.set_defaultformat at hok
    cases hget : dictGet? idx PlateIndex.DEFAULT_KEY with
    | some v =>
      rw [hget] at hok
      cases v with
      | plate p =>
        cases hok
        exact allPlates_dictInsert idx PlateIndex.DEFAULT_KEY _ hall
      | str s => cases hok
      | int n => cases hok
    | none =>
      rw [hget] at hok
      exact (hset_ok idx PlateIndex.DEFAULT_KEY _ idx' hok).2 hall

/-- Claim C10 (witness): rejection of a non-`Plate` assignment into the
empty index, and invariant preservation for a successful assignment. -/
theorem C10_plateindex_typed_witness :
    PlateIndex.setitem [] "p1" (.str "oops") = .error .typeError ∧
    ((PIValue.plate sbPlate).isPlate = true ∧
      (PlateIndex.allPlates [] →
        PlateIndex.allPlates [("p1", PIValue.plate sbPlate)])) :=
  ⟨C10_plateindex_typed.1 [] "p1" (.str "oops") (by decide),
   C10_plateindex_typed.2.1 [] "p1" (.plate sbPlate)
     [("p1", PIValue.plate sbPlate)] (by decide)⟩

/-! ### Skip behaviour of `distributeSamples` (claim C3) -/

/-- the (target, key) pairs `distributeSamples` skips: the key resolves
to no source entry, or to a zero volume (`if srcsample and vol`). -/
def skipPair (t : Reaction) (k : String) : Bool :=
  match t.sourceIndexGet k with
  | none => true
  | some (_, v) => v == 0

/-- a reaction with the zero-volume entries of `sourcevolumes` removed. -/
def Reaction.dropZeros (t : Reaction) : Reaction :=
  { t with sourcevolumes := t.sourcevolumes.filter (fun sv => sv.2 != 0) }

/-- the reaction's source full IDs are pairwise distinct (the normal
situation: one column per reagent). -/
def Reaction.nodupSourceIds (t : Reaction) : Prop := t.sourceIds.Nodup

instance (t : Reaction) : Decidable t.nodupSourceIds := by
  unfold Reaction.nodupSourceIds; infer_instance

theorem dictGet?_dictInsert {β : Type} (m : List (String × β)) (k k' : String)
    (v : β) :
    dictGet? (dictInsert m k v) k' = if k = k' then some v else dictGet? m k' := by
  induction m with
  | nil => simp [dictInsert, dictGet?]
  | cons hd tl ih =>
    rw [dictInsert]
    by_cases hk : hd.1 = k
    · by_cases hkk : k = k' <;> simp_all [dictGet?]
    · by_cases hkk : k = k' <;> by_cases h1 : hd.1 = k' <;>
        simp_all [dictGet?]

/-- looking a key up in the dict built by the `sourceIndex` fold finds
the *last* entry carrying that full ID (dict overwrite semantics). -/
theorem sourceFold_get (svs : List (Sample × Int))
    (m : List (String × (Sample × Int))) (k : String) :
    dictGet? (svs.foldl (fun m sv => dictInsert m sv.1.fullid sv) m) k =
      match svs.reverse.find? (fun sv => sv.1.fullid == k) with
      | some sv => some sv
      | none => dictGet? m k := by
  induction svs generalizing m with
  | nil => simp
  | cons sv rest ih =>
    rw [List.foldl_cons, ih, List.reverse_cons, List.find?_append]
    cases h : List.find? (fun sv => sv.1.fullid == k) rest.reverse with
    | some x => simp [Option.or]
    | none =>
      simp only [Option.none_or]
      rw [dictGet?_dictInsert]
      by_cases hk : sv.1.fullid = k
      · simp [List.find?_cons, hk]
      · simp [List.find?_cons, hk]

/-- `sourceIndex().get(k)` characterized on the raw `sourcevolumes`. -/
theorem Reaction.sourceIndexGet_eq (t : Reaction) (k : String) :
    t.sourceIndexGet k =
      match t.sourcevolumes.reverse.find? (fun sv => sv.1.fullid == k) with
      | some sv => some sv
      | none => none := by
  unfold Reaction.sourceIndexGet Reaction.sourceIndex
  rw [sourceFold_get]
  cases List.find? (fun sv => sv.1.fullid == k) t.sourcevolumes.reverse <;>
    simp [dictGet?]

/-- with pairwise-distinct keys, finding in the zero-filtered list is
finding in the original list and discarding a zero-volume result. -/
theorem find?_filter_nodup (l : List (Sample × Int)) (k : String)
    (h : (l.map (fun sv => sv.1.fullid)).Nodup) :
    (l.filter (fun sv => sv.2 != 0)).find? (fun sv => sv.1.fullid == k) =
      match l.find? (fun sv => sv.1.fullid == k) with
      | some sv => if sv.2 ≠ 0 then some sv else none
      | none => none := by
  induction l with
  | nil => simp
  | cons sv rest ih =>
    rw [List.map_cons, List.nodup_cons] at h
    obtain ⟨hnotin, hnd⟩ := h
    by_cases hk : sv.1.fullid = k
    · have hrest : rest.find? (fun sv => sv.1.fullid == k) = none := by
        rw [List.find?_eq_none]
        intro x hx hpx
        rw [beq_iff_eq] at hpx
        exact hnotin (by
          rw [hk, ← hpx]
          exact List.mem_map_of_mem _ hx)
      have hrestf :
          (rest.filter (fun sv => sv.2 != 0)).find?
            (fun sv => sv.1.fullid == k) = none := by
        rw [List.find?_eq_none]
        intro x hx hpx
        rw [beq_iff_eq] at hpx
        exact hnotin (by
          rw [hk, ← hpx]
          exact List.mem_map_of_mem _ (List.mem_of_mem_filter hx))
      by_cases hz : sv.2 = 0
      · simp [List.filter_cons, hz, List.find?_cons, hk, hrestf]
      · simp [List.filter_cons, hz, List.find?_cons, hk]
    · by_cases hz : sv.2 = 0 <;>
        simp [List.filter_cons, hz, List.find?_cons, hk, ih hnd]

/-- dropping zero-volume entries does not change the target's own well. -/
theorem Reaction.dropZeros_toSample (t : Reaction) :
    (t.dropZeros).toSample = t.toSample := rfl

/-- effect of the zero-filter on source lookup (distinct reagent keys). -/
theorem Reaction.sourceIndexGet_dropZeros (t : Reaction) (k : String)
    (h : t.nodupSourceIds) :
    t.dropZeros.sourceIndexGet k =
      match t.sourceIndexGet k with
      | some sv => if sv.2 ≠ 0 then some sv else none
      | none => none := by
  have hrevnd : (t.sourcevolumes.reverse.map (fun sv => sv.1.fullid)).Nodup := by
    rw [List.map_reverse, List.nodup_reverse]
    exact h
  rw [Reaction.sourceIndexGet_eq, Reaction.sourceIndexGet_eq]
  show (match (t.sourcevolumes.filter fun sv => sv.2 != 0).reverse.find?
          (fun sv => sv.1.fullid == k) with
        | some sv => some sv
        | none => none) = _
  rw [← List.filter_reverse, find?_filter_nodup _ k hrevnd]
  cases List.find? (fun sv => sv.1.fullid == k) t.sourcevolumes.reverse with
  | none => rfl
  | some sv =>
    by_cases hz : sv.2 = 0 <;> simp [hz]

/-- the per-pair transfer step is invariant under removing zero-volume
source entries. -/
theorem processPair_dropZeros (wash : Bool) (k : String) (t : Reaction)
    (h : t.nodupSourceIds) :
    SampleWorklist.processPair wash k t.dropZeros =
      SampleWorklist.processPair wash k t := by
  unfold SampleWorklist.processPair
  rw [Reaction.sourceIndexGet_dropZeros t k h]
  cases hg : t.sourceIndexGet k with
  | none => rfl
  | some sv =>
    obtain ⟨src, vol⟩ := sv
    by_cases hz : vol = 0
    · simp [hz]
    · simp [hz, Reaction.dropZeros_toSample]

theorem processTargets_map_dropZeros (wash : Bool) (k : String)
    (targets : List Reaction) (h : ∀ t ∈ targets, t.nodupSourceIds) :
    SampleWorklist.processTargets wash k (targets.map Reaction.dropZeros) =
      SampleWorklist.processTargets wash k targets := by
  induction targets with
  | nil => rfl
  | cons t ts ih =>
    rw [List.map_cons]
    simp only [SampleWorklist.processTargets]
    rw [processPair_dropZeros wash k t (h t (List.mem_cons_self _ _)),
      ih (fun t' ht' => h t' (List.mem_cons_of_mem _ ht'))]

theorem processKeys_map_dropZeros (wash : Bool) (targets : List Reaction)
    (ks : List String) (h : ∀ t ∈ targets, t.nodupSourceIds) :
    SampleWorklist.processKeys wash (targets.map Reaction.dropZeros) ks =
      SampleWorklist.processKeys wash targets ks := by
  induction ks with
  | nil => rfl
  | cons k ks ih =>
    simp only [SampleWorklist.processKeys]
    rw [processTargets_map_dropZeros wash k targets h, ih]

/-- a reagent key that every target skips writes nothing and raises
nothing. -/
theorem processTargets_skip (wash : Bool) (k : String)
    (targets : List Reaction) (h : ∀ t ∈ targets, skipPair t k = true) :
    SampleWorklist.processTargets wash k targets = .ok [] := by
  induction targets with
  | nil => rfl
  | cons t ts ih =>
    have hpair : SampleWorklist.processPair wash k t = .ok [] := by
      have hsk := h t (List.mem_cons_self _ _)
      unfold skipPair at hsk
      unfold SampleWorklist.processPair
      cases hg : t.sourceIndexGet k with
      | none => rfl
      | some sv =>
        obtain ⟨src, vol⟩ := sv
        rw [hg] at hsk
        simp only [beq_iff_eq] at hsk
        simp [hsk]
    simp only [SampleWorklist.processTargets, hpair,
      ih (fun t' ht' => h t' (List.mem_cons_of_mem _ ht'))]
    rfl

/-- inserting a key every target skips anywhere into the key list leaves
the emitted worklist unchanged. -/
theorem processKeys_insert_skip (wash : Bool) (targets : List Reaction)
    (k : String) (h : ∀ t ∈ targets, skipPair t k = true) :
    ∀ ks₁ ks₂, SampleWorklist.processKeys wash targets (ks₁ ++ k :: ks₂) =
      SampleWorklist.processKeys wash targets (ks₁ ++ ks₂) := by
  intro ks₁
  induction ks₁ with
  | nil =>
    intro ks₂
    simp only [List.nil_append, SampleWorklist.processKeys]
    rw [processTargets_skip wash k targets h]
    cases hr : SampleWorklist.processKeys wash targets ks₂ <;>
      simp [Bind.bind, Except.bind, hr, pure, Except.pure]
  | cons k0 ks₁ ih =>
    intro ks₂
    simp only [List.cons_append, SampleWorklist.processKeys, List.append_eq]
    rw [ih ks₂]

/-- Claim C3: `distributeSamples` emits no aspirate/dispense/wash line
and raises no error for a (target, key) pair whose source index lacks the
key or resolves it to volume zero: (i) a key skipped by every target can
be inserted anywhere in the processed key list without changing the
output; (ii) processing only such a key yields the empty worklist without
error; (iii) deleting all zero-volume source entries from every target
(with distinct reagent keys per target) leaves the output unchanged —
lines are only ever emitted for present, non-zero pairs. -/
theorem C3_zero_and_missing_skipped (wash : Bool) (targets : List Reaction) :
    (∀ k ks₁ ks₂, (∀ t ∈ targets, skipPair t k = true) → ks₁ ++ ks₂ ≠ [] →
      SampleWorklist.distributeSamples targets (ks₁ ++ k :: ks₂) wash =
        SampleWorklist.distributeSamples targets (ks₁ ++ ks₂) wash)
    ∧ (∀ k, (∀ t ∈ targets, skipPair t k = true) →
        SampleWorklist.distributeSamples targets [k] wash = .ok [])
    ∧ (∀ ks, ks ≠ [] → (∀ t ∈ targets, t.nodupSourceIds) →
        SampleWorklist.distributeSamples
            (targets.map Reaction.dropZeros) ks wash =
          SampleWorklist.distributeSamples targets ks wash) := by
  refine ⟨?_, ?_, ?_⟩
  · intro k ks₁ ks₂ h hne
    unfold SampleWorklist.distributeSamples
    rw [if_neg (by simp), if_neg hne]
    exact processKeys_insert_skip wash targets k h ks₁ ks₂
  · intro k h
    unfold SampleWorklist.distributeSamples
    rw [if_neg (by simp)]
    have := processKeys_insert_skip wash targets k h [] []
    simp only [List.nil_append, List.append_nil] at this
    rw [this]
    rfl
  · intro ks hne hnd
    unfold SampleWorklist.distributeSamples
    rw [if_neg hne, if_neg hne]
    exact processKeys_map_dropZeros wash targets ks hnd

/-- Claim C3 (witness): target 2 of the end-to-end scenario wants volume
0 of `reagent2`, so processing that key over `[target2]` emits nothing,
and zero-filtering the scenario targets leaves the full run unchanged. -/
theorem C3_zero_and_missing_skipped_witness :
    SampleWorklist.distributeSamples [Scenario.target2] ["reagent2"] true = .ok []
    ∧ SampleWorklist.distributeSamples
        ([Scenario.target1, Scenario.target2].map Reaction.dropZeros)
        ["reagent1", "reagent2"] true =
      SampleWorklist.distributeSamples [Scenario.target1, Scenario.target2]
        ["reagent1", "reagent2"] true :=
  ⟨(C3_zero_and_missing_skipped true [Scenario.target2]).2.1 "reagent2"
      (by decide),
   (C3_zero_and_missing_skipped true [Scenario.target1, Scenario.target2]).2.2
      ["reagent1", "reagent2"] (by decide) (by decide)⟩
